import Mathlib

/-!
Verification of the hoyo repository's check-in / redeem automation logic.

The Python sources are shallowly embedded: the browser is abstracted into
the observations the code branches on (element counts, style attributes,
dialog texts, exception messages); file I/O and encryption are modelled as
explicit state; every Python function relevant to the claims is translated
into a computable Lean definition keeping the source's control flow.
-/

/-- The `charsContain needle hay`: does `needle` occur as a contiguous sublist of `hay`? -/
def charsContain (needle : List Char) : List Char → Bool
  | [] => needle.isEmpty
  | c :: cs => needle.isPrefixOf (c :: cs) || charsContain needle cs

/-- Substring test: `strContains hay needle` is the Python `needle in hay`. -/
def strContains (hay needle : String) : Bool :=
  charsContain needle.data hay.data

/-! ## checkin/exceptions.py -/

/-- The `CheckinResult` enum from `src/checkin/exceptions.py`. -/
inductive CheckinResult where
  | SUCCESS
  | ALREADY_CHECKED_IN
  | FAILED
  | SESSION_EXPIRED
  | NETWORK_ERROR
  | TIMEOUT_ERROR
deriving DecidableEq, Repr

/-- A Python exception as seen by `classify_error`: either a
`CheckinException` (carrying its embedded `result` and message) or any
other exception, of which only `str(exception)` is inspected. -/
inductive PyExc where
  | checkin (result : CheckinResult) (msg : String)
  | other (msg : String)
deriving DecidableEq, Repr

/-- The `str(exception)` of an embedded exception. -/
def PyExc.str : PyExc → String
  | .checkin _ m => m
  | .other m => m

/-- Python `str.lower()` (character-wise lowercasing). -/
def strLower (s : String) : String := String.mk (s.data.map Char.toLower)

/-- The `classify_error` from `src/checkin/exceptions.py` lines 43-69. -/
def classify_error (exception : PyExc) : CheckinResult × String :=
  let error_str := strLower exception.str
  match exception with
  | .checkin result msg => (result, msg)
  | .other msg =>
    if ["timeout", "timed out"].any (fun k => strContains error_str k) then
      (CheckinResult.TIMEOUT_ERROR, "Operation timed out: " ++ msg)
    else if ["network", "connection", "dns"].any (fun k => strContains error_str k) then
      (CheckinResult.NETWORK_ERROR, "Network error: " ++ msg)
    else if ["session", "login", "auth", "unauthorized"].any (fun k => strContains error_str k) then
      (CheckinResult.SESSION_EXPIRED, "Session expired: " ++ msg)
    else
      (CheckinResult.FAILED, "Unexpected error: " ++ msg)

/-! ## checkin/base_checkin.py

The browser page is abstracted into the observations the flow branches on.
-/

/-- What `_verify_success` observes on the page: whether the
`wait_for_selector` on the success-message text succeeds within the
timeout, and the text content of the success dialog when
`success_dialog.count() > 0` (`none` when the dialog is absent). -/
structure VerifyObs where
  successTextAppears : Bool
  dialogText : Option String
deriving DecidableEq, Repr

/-- The `BaseCheckin._verify_success` from `src/checkin/base_checkin.py`
lines 221-252.  `successMessage` is `self.config.success_message`. -/
def verify_success (successMessage : String) (o : VerifyObs) : CheckinResult :=
  if o.successTextAppears then
    -- success message found within the timeout
    CheckinResult.SUCCESS
  else
    match o.dialogText with
    | some dialog_text =>
      if strContains dialog_text successMessage then
        -- success dialog found
        CheckinResult.SUCCESS
      else
        -- "If we got here, assume success since we clicked"
        CheckinResult.SUCCESS
    | none =>
      -- "If we got here, assume success since we clicked"
      CheckinResult.SUCCESS

/-- The `BaseCheckin._attempt_click` with its `_fallback_javascript_click`
(lines 154-209): the primary click, falling back to the JavaScript click
when the primary raises. -/
def attempt_click (primaryClickOk jsClickOk : Bool) : Bool :=
  if primaryClickOk then true else jsClickOk

/-- The `BaseCheckin._execute_checkin_flow` from `src/checkin/base_checkin.py`
lines 73-104, after navigation and popup dismissal: branch on the result
of `_find_clickable_item`, then click and verify.  `findResult` is what
the game-specific `_find_clickable_item` returned (`none` when no
clickable reward element was found). -/
def execute_checkin_flow (successMessage : String) (findResult : Option Unit)
    (primaryClickOk jsClickOk : Bool) (o : VerifyObs) : CheckinResult :=
  match findResult with
  | none =>
    -- `_handle_no_clickable_items` (lines 148-152)
    CheckinResult.ALREADY_CHECKED_IN
  | some _ =>
    if attempt_click primaryClickOk jsClickOk then
      verify_success successMessage o
    else
      CheckinResult.FAILED

/-- Modelled from the spec: the game-specific `_find_clickable_item`
overrides (the `GenshinImpactCheckin` / `HonkaiStarRailCheckin` /
`ZenlessZoneZeroCheckin` subclasses are imported by `src/checkin/checkin.py`
but their definitions are not under src/).  Per the spec, the routine
"search[es] the DOM for a reward element matching a game-specific
predicate" and returns the matching element, or nothing when none
matches. -/
def findRewardElement {E : Type} (elements : List E) (pred : E → Bool) : Option E :=
  elements.find? pred

/-! ## checkin/zzz_checkin.py (legacy script) -/

/-- The return value of the legacy `perform_zzz_checkin`, which mixes the
result strings with a bare `return False` on session/click failures. -/
inductive LegacyRet where
  | str (s : String)
  | pyFalse
deriving DecidableEq, Repr

/-- Target background image marking the clickable ZZZ item
(`src/checkin/zzz_checkin.py` line 81). -/
def zzzTargetBgImage : String :=
  "https://act-webstatic.hoyoverse.com/event-static/2024/06/17/3b211daae47bbfac6bed5b447374a325_3353871917298254056.png"

/-- The loop at `src/checkin/zzz_checkin.py` lines 85-101: find the first
prize item whose `style` attribute contains the target background image.
Each element of `items` is the item's `style` attribute
(`none` when `get_attribute` returns `None`). -/
def zzzFindClickableItem (items : List (Option String)) : Option (Option String) :=
  items.find? fun styleAttr =>
    match styleAttr with
    | some s => strContains s zzzTargetBgImage
    | none => false

/-- What the legacy ZZZ script observes after clicking: whether the
primary click raises, whether the JavaScript fallback raises, and whether
any of the success-dialog selectors appears within its timeout. -/
structure ZzzClickObs where
  primaryClickOk : Bool
  jsClickOk : Bool
  successDialogAppears : Bool
deriving DecidableEq, Repr

/-- Decision structure of `perform_zzz_checkin` from
`src/checkin/zzz_checkin.py` lines 70-188, after session setup and popup
dismissal (the surrounding `except` branch that returns `"failed"` on an
unhandled error is not triggered on these paths). -/
def perform_zzz_checkin (items : List (Option String)) (o : ZzzClickObs) : LegacyRet :=
  if items.length > 0 then
    match zzzFindClickableItem items with
    | some _ =>
      if o.primaryClickOk then
        if o.successDialogAppears then .str "success"
        else .str "success"  -- "Assume success if clicked"
      else if o.jsClickOk then
        if o.successDialogAppears then .str "success"
        else .str "success"  -- "Assume success if clicked"
      else
        .pyFalse  -- "Both click methods failed" (line 135: `return False`)
    | none =>
      -- "No clickable items found - likely already checked in" (lines 176-182)
      .str "already_checked_in"
  else
    -- "No ZZZ check-in items found on page" (lines 184-188)
    .str "failed"

/-! ## checkin/config.py -/

/-- The `Game` enum from `src/checkin/config.py`. -/
inductive Game where
  | GI
  | HSR
  | ZZZ
deriving DecidableEq, Repr

/-- The `Game(value)` construction: succeeds exactly on the enum values
`"gi"`, `"hsr"`, `"zzz"`, otherwise raises `ValueError`. -/
def gameOfString (s : String) : Option Game :=
  if s = "gi" then some Game.GI
  else if s = "hsr" then some Game.HSR
  else if s = "zzz" then some Game.ZZZ
  else none

/-- The `list(Game)`: all members in definition order. -/
def allGames : List Game := [Game.GI, Game.HSR, Game.ZZZ]

/-- One iteration of the `for game_str in env_games` loop of
`get_enabled_games`: append the parsed game, or `continue` on
`ValueError`. -/
def enabledStep (acc : List Game) (game_str : String) : List Game :=
  match gameOfString game_str.trim.toLower with
  | some g => acc ++ [g]
  | none => acc

/-- The `get_enabled_games` from `src/checkin/config.py` lines 85-96.
`env` is the value of the `HOYO_ENABLED_GAMES` environment variable
(`none` when unset, in which case `os.getenv` yields `"gi,hsr,zzz"`). -/
def get_enabled_games (env : Option String) : List Game :=
  let env_games := (env.getD "gi,hsr,zzz").splitOn ","
  let enabled := env_games.foldl enabledStep []
  if enabled.isEmpty then allGames else enabled

/-! ## auth/secure_session.py

JSON values are modelled by an inductive type; the session file holds a
blob that is either plaintext JSON bytes, a Fernet token (an encrypted
JSON payload tagged with the key that produced it, reflecting Fernet's
authenticated encryption: decryption succeeds exactly under the same
key), empty bytes, or unparseable garbage.  `CRYPTO_AVAILABLE` is the
`crypto` parameter.
-/

/-- A JSON value (numbers restricted to integers; the session payloads in
this repository only use strings, objects and arrays). -/
inductive Json where
  | null
  | bool (b : Bool)
  | num (n : Int)
  | str (s : String)
  | arr (elems : List Json)
  | obj (fields : List (String × Json))

/-- Key lookup in a JSON object's field list (first binding wins, as in a
Python dict built without duplicate keys). -/
def jlookup (fields : List (String × Json)) (k : String) : Option Json :=
  (fields.find? (fun p => p.1 = k)).map (·.2)

/-- Python truthiness of a JSON-like value (`local_storage or {}`). -/
def jsonTruthy : Json → Bool
  | .null => false
  | .bool b => b
  | .num n => n != 0
  | .str s => !(s = "")
  | .arr elems => !elems.isEmpty
  | .obj fields => !fields.isEmpty

/-- The `required_cookie_fields = {"name", "value", "domain"}`
(`src/auth/secure_session.py` line 210). -/
def requiredCookieFields : List String := ["name", "value", "domain"]

/-- The per-cookie check in `_validate_session_data` lines 211-215:
the cookie is a dict and the required fields are a subset of its keys. -/
def validCookie : Json → Bool
  | .obj fields => requiredCookieFields.all (fun f => (jlookup fields f).isSome)
  | _ => false

/-- The `SecureSessionManager._validate_session_data` from
`src/auth/secure_session.py` lines 189-217. -/
def validate_session_data : Json → Bool
  | .obj fields =>
    match jlookup fields "cookies" with
    | none => false         -- `"cookies" not in data`
    | some (.arr cookies) => cookies.all validCookie
    | some _ => false       -- `not isinstance(cookies, list)`
  | _ => false              -- `not isinstance(data, dict)`

/-- Contents of the session file as a byte blob. -/
inductive Blob where
  | empty
  | garbage
  | plain (v : Json)
  | enc (key : Nat) (v : Json)

/-- The session file on disk: absent, present but unreadable (the read
raises an `OSError`), or present with some contents. -/
inductive SessFile where
  | missing
  | unreadable
  | stored (b : Blob)

/-- State of the session store: the key file (`.session_key`), the
session file, and the key `Fernet.generate_key()` would produce next. -/
structure Store where
  keyFile : Option Nat
  sessionFile : SessFile
  freshKey : Nat

/-- The `SecureSessionManager._get_or_create_key` lines 40-71: reuse the key
on disk, otherwise generate a fresh one and persist it. -/
def get_or_create_key (st : Store) : Nat × Store :=
  match st.keyFile with
  | some k => (k, st)
  | none => (st.freshKey, { st with keyFile := some st.freshKey })

/-- The `SecureSessionManager._encrypt_data` lines 73-92: plain JSON bytes
when crypto is unavailable, otherwise a Fernet token under the stored (or
freshly created) key. -/
def encrypt_data (crypto : Bool) (st : Store) (data : Json) : Blob × Store :=
  if crypto then
    let (key, st') := get_or_create_key st
    (Blob.enc key data, st')
  else
    (Blob.plain data, st)

/-- The `SecureSessionManager._decrypt_data` lines 94-116.  Without crypto the
blob must be plain JSON bytes (`json.loads` raises otherwise); with
crypto, `fernet.decrypt` succeeds exactly on a token produced under the
current key, and any failure is re-raised. -/
def decrypt_data (crypto : Bool) (st : Store) (b : Blob) : Except String Json :=
  if crypto then
    let key := (get_or_create_key st).1
    match b with
    | .enc k v => if k = key then .ok v else .error "InvalidToken"
    | _ => .error "InvalidToken"
  else
    match b with
    | .plain v => .ok v
    | _ => .error "JSONDecodeError"

/-- The session record built at `src/auth/secure_session.py` lines
130-133: `{"cookies": cookies, "local_storage": local_storage or {}}`. -/
def mkSessionData (cookies : Json) (local_storage : Option Json) : Json :=
  .obj [("cookies", cookies),
        ("local_storage",
          match local_storage with
          | none => .obj []
          | some v => if jsonTruthy v then v else .obj [])]

/-- The `SecureSessionManager.save_session` lines 118-154: validate, then
encrypt and write the session file.  Returns the Python return value
together with the updated store (unchanged when validation fails). -/
def save_session (crypto : Bool) (cookies : Json) (local_storage : Option Json)
    (st : Store) : Bool × Store :=
  let session_data := mkSessionData cookies local_storage
  if validate_session_data session_data then
    let (encrypted, st') := encrypt_data crypto st session_data
    (true, { st' with sessionFile := .stored encrypted })
  else
    (false, st)  -- "Session data validation failed"

/-- The `try` block of `load_session` (lines 167-183): read the file
(raising on an unreadable file), return `None` on empty contents, decrypt
(propagating any failure), and validate. -/
def load_session_try (crypto : Bool) (st : Store) (f : SessFile) :
    Except String (Option Json) :=
  match f with
  | .missing => .ok none
  | .unreadable => .error "OSError"
  | .stored b =>
    match b with
    | .empty => .ok none  -- "Session file is empty"
    | _ =>
      match decrypt_data crypto st b with
      | .error e => .error e
      | .ok session_data =>
        if validate_session_data session_data then .ok (some session_data)
        else .ok none  -- "Loaded session data is invalid"

/-- The `SecureSessionManager.load_session` lines 156-187: `None` when the
file is absent; otherwise run the `try` block, with the blanket `except`
turning every raised error into `None`. -/
def load_session (crypto : Bool) (st : Store) : Option Json :=
  match st.sessionFile with
  | .missing => none  -- "No session file found"
  | f =>
    match load_session_try crypto st f with
    | .ok v => v
    | .error _ => none  -- "Failed to load session data"

/-! ## redeem/main.py

The redeemed-codes ledger `{game_key: {code: {message, timestamp}}}` is
modelled as an association list of association lists with Python-dict
update semantics.  The per-game redemption functions (which drive a
browser) are abstracted into a parameter; the run additionally records
which `(game_key, code)` pairs that parameter was invoked on.
-/

/-- A ledger entry `{message, timestamp}`. -/
structure RedeemEntry where
  message : String
  timestamp : String
deriving DecidableEq, Repr

/-- The redeemed-codes ledger. -/
abbrev Ledger := List (String × List (String × RedeemEntry))

/-- The `redeemed_codes[game_key]` (first binding, as in a Python dict). -/
def ledgerGame (l : Ledger) (game_key : String) : Option (List (String × RedeemEntry)) :=
  (l.find? (fun p => p.1 = game_key)).map (·.2)

/-- The `is_code_redeemed` from `src/redeem/main.py` lines 51-53:
`game_key in redeemed_codes and code in redeemed_codes[game_key]`. -/
def is_code_redeemed (redeemed_codes : Ledger) (game_key code : String) : Bool :=
  match ledgerGame redeemed_codes game_key with
  | none => false
  | some codes => ((codes.find? (fun p => p.1 = code)).isSome : Bool)

/-- Dict assignment `codes[code] = entry`: replace the binding if the key
is present, append it otherwise. -/
def setCode (codes : List (String × RedeemEntry)) (code : String) (e : RedeemEntry) :
    List (String × RedeemEntry) :=
  if (codes.find? (fun p => p.1 = code)).isSome then
    codes.map (fun p => if p.1 = code then (p.1, e) else p)
  else
    codes ++ [(code, e)]

/-- The `mark_code_redeemed` from `src/redeem/main.py` lines 56-64
(`timestamp` abstracts `datetime.now().isoformat()`). -/
def mark_code_redeemed (redeemed_codes : Ledger) (game_key code message timestamp : String) :
    Ledger :=
  let l := if (redeemed_codes.find? (fun p => p.1 = game_key)).isSome
           then redeemed_codes
           else redeemed_codes ++ [(game_key, [])]
  l.map (fun p => if p.1 = game_key
                  then (p.1, setCode p.2 code ⟨message, timestamp⟩)
                  else p)

/-- Outcome of calling a per-game redemption function: it raises, or
returns a dict whose `success` / `message` entries are read with `.get`. -/
inductive RedeemOutcome where
  | exn (msg : String)
  | res (success : Bool) (message : Option String)

/-- The `GAME_MAPPINGS` from `src/redeem/main.py` lines 22-26, restricted to
the game-key column (the function column is the `redeemFn` parameter). -/
def gameMappings : String → Option String
  | "Zenless Zone Zero" => some "ZZZ"
  | "Honkai Star Rail" => some "HSR"
  | "Genshin Impact" => some "GI"
  | _ => none

/-- State threaded through the `main_redeem` processing loop: the ledger,
the accumulated `redemption_results` rows `(game_key, code, message)`,
and — instrumentation — the `(game_key, code)` pairs on which the
redemption function has been invoked. -/
structure RedeemRunState where
  ledger : Ledger
  results : List (String × String × String)
  invoked : List (String × String)

/-- One iteration of the inner loop of `main_redeem`
(`src/redeem/main.py` lines 123-149) on a single code. -/
def processCode (redeemFn : String → String → RedeemOutcome) (timestamp : String)
    (st : RedeemRunState) (game_key code : String) : RedeemRunState :=
  if is_code_redeemed st.ledger game_key code then
    -- "Skipping ... - already redeemed"
    { st with results := st.results ++ [(game_key, code, "Redeemed Before")] }
  else
    let st := { st with invoked := st.invoked ++ [(game_key, code)] }
    match redeemFn game_key code with
    | .exn e =>
      { st with results := st.results ++ [(game_key, code, "Error: " ++ e)] }
    | .res success msg =>
      let message := msg.getD "Unknown result"
      let st :=
        if success then
          { st with ledger := mark_code_redeemed st.ledger game_key code message timestamp }
        else st
      { st with results := st.results ++ [(game_key, code, message)] }

/-- The processing loop of `main_redeem` (`src/redeem/main.py` lines
116-149) over the search results `(game_name, codes)` (the article date
is not used by the loop).  Unknown game names are skipped. -/
def main_redeem_loop (redeemFn : String → String → RedeemOutcome) (timestamp : String)
    (search_results : List (String × List String)) (st : RedeemRunState) : RedeemRunState :=
  search_results.foldl (fun st entry =>
    match gameMappings entry.1 with
    | none => st  -- "Unknown game"
    | some game_key =>
      entry.2.foldl (fun st code => processCode redeemFn timestamp st game_key code) st) st

/-- The `main_redeem` on a loaded ledger: run the loop from an empty result
list with no invocations recorded. -/
def main_redeem (redeemFn : String → String → RedeemOutcome) (timestamp : String)
    (search_results : List (String × List String)) (redeemed_codes : Ledger) :
    RedeemRunState :=
  main_redeem_loop redeemFn timestamp search_results ⟨redeemed_codes, [], []⟩

/-! ## redeem/search.py

The regex `(?<!\.)\b[0-9a-zA-Z]{5,}\b(?!\.)` over an ASCII text matches
exactly the maximal alphanumeric runs of length at least 5 whose
neighbouring characters (when present) are neither word characters
(which would break `\b`; an adjacent alphanumeric character is impossible
for a maximal run, so this only excludes `_`) nor `.` (the lookarounds).
The scanner below walks the text once, accumulating the current run and
remembering the character preceding it.
-/

/-- The character class `[0-9a-zA-Z]` of the code regex. -/
def isAlnumAscii (c : Char) : Bool := c.isAlphanum

/-- A regex word character (`\w`, ASCII): alphanumeric or underscore. -/
def isWordChar (c : Char) : Bool := c.isAlphanum || c == '_'

/-- Boundary test for a match: the neighbouring character (when present)
must not be a word character (`\b`) and must not be `.` (the
`(?<!\.)` / `(?!\.)` lookarounds). -/
def boundaryOk : Option Char → Bool
  | none => true
  | some c => !isWordChar c && !(c == '.')

/-- Emit the accumulated run `acc` (in reverse order) as a match if it
has length at least 5 and both boundaries are clean. -/
def emitRun (acc : List Char) (prev after : Option Char) : List String :=
  if 5 ≤ acc.length && boundaryOk prev && boundaryOk after then
    [String.mk acc.reverse]
  else
    []

/-- Scan the text for the matches of the code regex.  `prev` is the
character immediately before the current alphanumeric run (or before the
current position when no run is open); `acc` is the current run,
reversed. -/
def scanCodes (prev : Option Char) (acc : List Char) : List Char → List String
  | [] => emitRun acc prev none
  | c :: cs =>
    if isAlnumAscii c then
      scanCodes prev (c :: acc) cs
    else
      emitRun acc prev (some c) ++ scanCodes (some c) [] cs

/-- The `re.findall(r'(?<!\.)\b[0-9a-zA-Z]{5,}\b(?!\.)', content_text)`
(`src/redeem/search.py` lines 120-121). -/
def findCodeMatches (content_text : String) : List String :=
  scanCodes none [] content_text.data

/-- Python `str.isdigit` on the (nonempty) matched tokens. -/
def pyIsDigit (s : String) : Bool := s.data.all Char.isDigit

/-- Python `str.isalpha` on the (nonempty) matched tokens. -/
def pyIsAlpha (s : String) : Bool := s.data.all Char.isAlpha

/-- The false-positive filter loop of `search`
(`src/redeem/search.py` lines 124-132). -/
def filterCodes (codes : List String) : List String :=
  codes.foldl (fun filtered_codes code =>
    if pyIsDigit code then filtered_codes            -- "all numbers"
    else if pyIsAlpha code && code.length < 8 then filtered_codes  -- short word
    else filtered_codes ++ [code]) []

/-- Code extraction from one article body (`src/redeem/search.py`
lines 119-132): the regex matches, then the false-positive filter. -/
def extractCodes (content_text : String) : List String :=
  filterCodes (findCodeMatches content_text)

/-! ## CLI dispatcher -/

/-- Modelled from the spec: the `bin/hoyo` command-line dispatcher is not
under src/ (only the spec's section 6 describes it).  Per the spec, an
invocation is "a command word or sequence of command words (`checkin`,
`redeem`, `auth`, `help`)"; "unknown commands produce a non-zero exit";
"`auth` cannot be combined with other commands in the same invocation",
and such an invocation "exits non-zero before performing any action".
`runCli` returns the exit status and the list of actions performed. -/
def cliCommandWords : List String := ["checkin", "redeem", "auth", "help"]

/-- Modelled from the spec: dispatch a list of command words.  Any
unknown word, or `auth` together with any other word, exits non-zero
with no action performed; otherwise the commands run in sequence. -/
def runCli (args : List String) : Nat × List String :=
  if ¬ (∀ w ∈ args, w ∈ cliCommandWords) then
    (1, [])
  else if "auth" ∈ args ∧ 1 < args.length then
    (1, [])
  else
    (0, args)

/-- Validity of the `cookies` argument as checked inside
`_validate_session_data`: a list whose members all pass the per-cookie
check (`validCookie c = false` covers both a non-dict cookie and a
cookie missing one of "name", "value", "domain"). -/
def cookiesArg_valid : Json → Bool
  | .arr cookies => cookies.all validCookie
  | _ => false

/-- Field access `d["cookies"]` on a loaded session record. -/
def jfield (d : Json) (k : String) : Option Json :=
  match d with
  | .obj fields => jlookup fields k
  | _ => none

/-- The invariant carried through the `main_redeem` loop for a pair
already in the ledger: it stays in the ledger, the redemption function
has not been invoked on it, and every result row for it reads
"Redeemed Before". -/
def RedeemInvariant (gk code : String) (st : RedeemRunState) : Prop :=
  is_code_redeemed st.ledger gk code = true ∧
  (gk, code) ∉ st.invoked ∧
  ∀ r ∈ st.results, r.1 = gk → r.2.1 = code → r.2.2 = "Redeemed Before"

/-! ## Helper lemmas -/

/-- Folding a skip-or-append body over a list equals `filter`. -/
theorem foldl_filter_go {α : Type} (p q : α → Bool) (l : List α) (init : List α) :
    l.foldl (fun acc x => if p x then acc else if q x then acc else acc ++ [x]) init
    = init ++ l.filter (fun x => !(p x) && !(q x)) := by
  induction l generalizing init with
  | nil => simp
  | cons c cs ih =>
    simp only [List.foldl_cons, List.filter_cons]
    cases h1 : p c with
    | true => simp [h1, ih]
    | false =>
      cases h2 : q c with
      | true => simp [h1, h2, ih]
      | false => simp [h1, h2, ih]

/-- The `filterCodes` is the evident filter. -/
theorem filterCodes_eq_filter (codes : List String) :
    filterCodes codes =
      codes.filter (fun code =>
        !(pyIsDigit code) && !(pyIsAlpha code && decide (code.length < 8))) := by
  unfold filterCodes
  simpa using
    foldl_filter_go pyIsDigit (fun code => pyIsAlpha code && decide (code.length < 8)) codes []

/-- Folding the accumulate-on-parse body of `get_enabled_games` equals `filterMap`. -/
theorem enabledGames_go (l : List String) (init : List Game) :
    l.foldl enabledStep init = init ++ l.filterMap (fun s => gameOfString s.trim.toLower) := by
  induction l generalizing init with
  | nil => simp
  | cons s l ih =>
    simp only [List.foldl_cons, List.filterMap_cons]
    cases h : gameOfString s.trim.toLower with
    | none => simp [enabledStep, h, ih]
    | some g => simp [enabledStep, h, ih]

/-- Two distinct members force length at least two. -/
theorem one_lt_length_of_two_mem {α : Type} {a b : α} {l : List α}
    (ha : a ∈ l) (hb : b ∈ l) (hne : a ≠ b) : 1 < l.length := by
  match l with
  | [] => cases ha
  | [x] =>
    simp only [List.mem_singleton] at ha hb
    exact absurd (ha.trans hb.symm) hne
  | x :: y :: t => simp

/-! ## Claim theorems -/

/-- C4: code extraction returns exactly the regex matches minus the
all-digit tokens and the all-letter tokens shorter than 8 characters,
and on "Use code ABCDE123 before..." it yields exactly ["ABCDE123"]. -/
theorem c4_code_extraction :
    (∀ content_text : String,
      extractCodes content_text =
        (findCodeMatches content_text).filter
          (fun code => !(pyIsDigit code) && !(pyIsAlpha code && decide (code.length < 8)))) ∧
    extractCodes "Use code ABCDE123 before..." = ["ABCDE123"] := by
  constructor
  · intro t
    simp [extractCodes, filterCodes_eq_filter]
  · decide

/-- C5: when the click succeeded but neither the success-message text nor
a success dialog containing it appears within the timeout,
`_verify_success` still returns SUCCESS (assume-success policy). -/
theorem c5_assume_success (successMessage : String) (o : VerifyObs)
    (h1 : o.successTextAppears = false)
    (h2 : ∀ t, o.dialogText = some t → strContains t successMessage = false) :
    verify_success successMessage o = CheckinResult.SUCCESS := by
  rcases o with ⟨sta, dt⟩
  cases sta <;> cases dt <;> simp_all [verify_success]

/-- Witness for C5 at a concrete page state with no success indicators. -/
theorem c5_assume_success_witness :
    verify_success "Congratulations! Check-in successful!" ⟨false, none⟩ =
      CheckinResult.SUCCESS :=
  c5_assume_success _ _ rfl (fun _ ht => nomatch ht)

/-- C6: `classify_error` returns the embedded result of a
`CheckinException`; otherwise TIMEOUT_ERROR on a lowercased message
containing "timeout" or "timed out"; otherwise NETWORK_ERROR on
"network", "connection" or "dns"; otherwise SESSION_EXPIRED on
"session", "login", "auth" or "unauthorized"; and FAILED in all
remaining cases (totality is by construction: it is a function). -/
theorem c6_classify_error :
    (∀ (r : CheckinResult) (m : String), classify_error (.checkin r m) = (r, m)) ∧
    (∀ m : String,
      (strContains (strLower m) "timeout" = true ∨ strContains (strLower m) "timed out" = true) →
      (classify_error (.other m)).1 = CheckinResult.TIMEOUT_ERROR) ∧
    (∀ m : String,
      strContains (strLower m) "timeout" = false → strContains (strLower m) "timed out" = false →
      (strContains (strLower m) "network" = true ∨ strContains (strLower m) "connection" = true ∨
        strContains (strLower m) "dns" = true) →
      (classify_error (.other m)).1 = CheckinResult.NETWORK_ERROR) ∧
    (∀ m : String,
      strContains (strLower m) "timeout" = false → strContains (strLower m) "timed out" = false →
      strContains (strLower m) "network" = false → strContains (strLower m) "connection" = false →
      strContains (strLower m) "dns" = false →
      (strContains (strLower m) "session" = true ∨ strContains (strLower m) "login" = true ∨
        strContains (strLower m) "auth" = true ∨ strContains (strLower m) "unauthorized" = true) →
      (classify_error (.other m)).1 = CheckinResult.SESSION_EXPIRED) ∧
    (∀ m : String,
      strContains (strLower m) "timeout" = false → strContains (strLower m) "timed out" = false →
      strContains (strLower m) "network" = false → strContains (strLower m) "connection" = false →
      strContains (strLower m) "dns" = false →
      strContains (strLower m) "session" = false → strContains (strLower m) "login" = false →
      strContains (strLower m) "auth" = false → strContains (strLower m) "unauthorized" = false →
      (classify_error (.other m)).1 = CheckinResult.FAILED) := by
  refine ⟨fun r m => rfl, ?_, ?_, ?_, ?_⟩
  · intro m h
    rcases h with h | h <;>
      simp [classify_error, PyExc.str, List.any_cons, List.any_nil, h]
  · intro m h1 h2 h
    rcases h with h | h | h <;>
      simp [classify_error, PyExc.str, List.any_cons, List.any_nil, h1, h2, h]
  · intro m h1 h2 h3 h4 h5 h
    rcases h with h | h | h | h <;>
      simp [classify_error, PyExc.str, List.any_cons, List.any_nil, h1, h2, h3, h4, h5, h]
  · intro m h1 h2 h3 h4 h5 h6 h7 h8 h9
    simp [classify_error, PyExc.str, List.any_cons, List.any_nil,
      h1, h2, h3, h4, h5, h6, h7, h8, h9]

/-- Witness for C6 at concrete exceptions for each branch. -/
theorem c6_classify_error_witness :
    classify_error (.checkin CheckinResult.SESSION_EXPIRED "timeout inside") =
      (CheckinResult.SESSION_EXPIRED, "timeout inside") ∧
    (classify_error (.other "Connection Timed Out")).1 = CheckinResult.TIMEOUT_ERROR ∧
    (classify_error (.other "DNS lookup failed")).1 = CheckinResult.NETWORK_ERROR ∧
    (classify_error (.other "Unauthorized request")).1 = CheckinResult.SESSION_EXPIRED ∧
    (classify_error (.other "element not found")).1 = CheckinResult.FAILED :=
  ⟨c6_classify_error.1 CheckinResult.SESSION_EXPIRED "timeout inside",
   c6_classify_error.2.1 "Connection Timed Out" (Or.inr (by decide)),
   c6_classify_error.2.2.1 "DNS lookup failed" (by decide) (by decide)
     (Or.inr (Or.inr (by decide))),
   c6_classify_error.2.2.2.1 "Unauthorized request" (by decide) (by decide) (by decide)
     (by decide) (by decide) (Or.inr (Or.inr (Or.inr (by decide)))),
   c6_classify_error.2.2.2.2 "element not found" (by decide) (by decide) (by decide)
     (by decide) (by decide) (by decide) (by decide) (by decide) (by decide)⟩

/-- C9: for every value of `HOYO_ENABLED_GAMES` (including unset),
`get_enabled_games` returns a non-empty list (of `Game` values, so only
valid games): entries are trimmed and lowercased, invalid entries are
dropped, and when no valid entry remains the full list of all three
games is returned. -/
theorem c9_enabled_games (env : Option String) :
    get_enabled_games env ≠ [] ∧
    get_enabled_games env =
      (let parsed := ((env.getD "gi,hsr,zzz").splitOn ",").filterMap
        (fun s => gameOfString s.trim.toLower)
       if parsed.isEmpty then allGames else parsed) := by
  have h : get_enabled_games env =
      (let parsed := ((env.getD "gi,hsr,zzz").splitOn ",").filterMap
        (fun s => gameOfString s.trim.toLower)
       if parsed.isEmpty then allGames else parsed) := by
    simp only [get_enabled_games, enabledGames_go, List.nil_append]
  refine ⟨?_, h⟩
  rw [h]
  simp only []
  split
  · simp [allGames]
  · next hp =>
    intro hnil
    rw [hnil] at hp
    simp at hp

/-- C3 counterexample: on a claim page with zero reward elements (hence
zero elements matching the clickable-item predicate), the legacy ZZZ
check-in routine returns the "failed" result, not "already checked in",
refuting the claim as stated. -/
theorem c3_counterexample :
    perform_zzz_checkin [] ⟨true, true, true⟩ = LegacyRet.str "failed" ∧
    LegacyRet.str "failed" ≠ LegacyRet.str "already_checked_in" := by
  exact ⟨rfl, by decide⟩

/-- C3 amended: in the class-based routine (`_execute_checkin_flow`),
zero reward elements matching the clickable-item predicate always yields
ALREADY_CHECKED_IN, never FAILED, whatever the game configuration; the
legacy ZZZ script yields "already_checked_in" only when the page has at
least one reward element but none matches the predicate, and yields
"failed" when the page has zero reward elements. -/
theorem c3_no_reward_result :
    (∀ (E : Type) (elements : List E) (pred : E → Bool),
      (∀ e ∈ elements, pred e = false) → findRewardElement elements pred = none) ∧
    (∀ (successMessage : String) (p j : Bool) (o : VerifyObs),
      execute_checkin_flow successMessage none p j o = CheckinResult.ALREADY_CHECKED_IN) ∧
    (∀ (items : List (Option String)) (o : ZzzClickObs),
      items ≠ [] → zzzFindClickableItem items = none →
      perform_zzz_checkin items o = LegacyRet.str "already_checked_in") ∧
    (∀ o : ZzzClickObs, perform_zzz_checkin [] o = LegacyRet.str "failed") := by
  refine ⟨?_, fun _ _ _ _ => rfl, ?_, fun o => rfl⟩
  · intro E elements pred h
    simp only [findRewardElement, List.find?_eq_none]
    intro x hx
    simp [h x hx]
  · intro items o hne hfind
    unfold perform_zzz_checkin
    rw [hfind]
    rw [if_pos (by simpa [List.length_pos] using hne)]

/-- Witness for C3's amended theorem at concrete pages. -/
theorem c3_no_reward_result_witness :
    findRewardElement [0, 1] (fun _ => false) = none ∧
    perform_zzz_checkin [some "background: none"] ⟨true, true, true⟩ =
      LegacyRet.str "already_checked_in" :=
  ⟨c3_no_reward_result.1 Nat [0, 1] (fun _ => false) (fun _ _ => rfl),
   c3_no_reward_result.2.2.1 [some "background: none"] ⟨true, true, true⟩
     (by decide) (by decide)⟩

/-- C8: whenever `auth` appears together with any other command word in
one invocation, the CLI exits non-zero and performs no action. -/
theorem c8_auth_exclusive (args : List String) (w : String)
    (hauth : "auth" ∈ args) (hw : w ∈ args) (hne : w ≠ "auth") :
    (runCli args).1 ≠ 0 ∧ (runCli args).2 = [] := by
  unfold runCli
  by_cases hall : ∀ x ∈ args, x ∈ cliCommandWords
  · rw [if_neg (not_not_intro hall),
      if_pos ⟨hauth, one_lt_length_of_two_mem hw hauth hne⟩]
    exact ⟨one_ne_zero, rfl⟩
  · rw [if_pos hall]
    exact ⟨one_ne_zero, rfl⟩

/-- Witness for C8 at the concrete invocation `hoyo auth checkin`. -/
theorem c8_auth_exclusive_witness :
    (runCli ["auth", "checkin"]).1 ≠ 0 ∧ (runCli ["auth", "checkin"]).2 = [] :=
  c8_auth_exclusive ["auth", "checkin"] "checkin" (by decide) (by decide) (by decide)

/-- The record built by `save_session` stores the cookies argument under
the "cookies" key. -/
theorem jfield_mkSessionData_cookies (cookies : Json) (local_storage : Option Json) :
    jfield (mkSessionData cookies local_storage) "cookies" = some cookies := by
  simp [jfield, mkSessionData, jlookup, List.find?]

/-- Validation of the record built by `save_session` depends exactly on
the `cookies` argument. -/
theorem validate_mkSessionData (cookies : Json) (local_storage : Option Json) :
    validate_session_data (mkSessionData cookies local_storage) =
      cookiesArg_valid cookies := by
  cases cookies <;> rfl

/-- After `_get_or_create_key`, the key file holds the returned key. -/
theorem get_or_create_key_keyFile (st : Store) :
    (get_or_create_key st).2.keyFile = some (get_or_create_key st).1 := by
  cases h : st.keyFile <;> simp [get_or_create_key, h]

/-- C10: when the cookies argument is not a list, or some cookie is not
a dict, or some cookie lacks one of "name", "value", "domain",
`save_session` returns False and the store — session file included — is
unchanged (validation happens before the write). -/
theorem c10_invalid_cookies_not_saved (crypto : Bool) (cookies : Json)
    (local_storage : Option Json) (st : Store)
    (h : (∀ l : List Json, cookies ≠ .arr l) ∨
      ∃ (l : List Json) (c : Json), cookies = .arr l ∧ c ∈ l ∧ validCookie c = false) :
    save_session crypto cookies local_storage st = (false, st) := by
  have hv : cookiesArg_valid cookies = false := by
    rcases h with h | ⟨l, c, rfl, hc, hvc⟩
    · cases cookies with
      | arr l => exact absurd rfl (h l)
      | null => rfl
      | bool b => rfl
      | num n => rfl
      | str s => rfl
      | obj fields => rfl
    · simp only [cookiesArg_valid, List.all_eq_false]
      exact ⟨c, hc, by simp [hvc]⟩
  simp [save_session, validate_mkSessionData, hv]

/-- Witness for C10: a non-list cookies argument is rejected without
touching the store. -/
theorem c10_invalid_cookies_not_saved_witness :
    save_session false (.str "not-a-list") none ⟨none, SessFile.missing, 0⟩ =
      (false, ⟨none, SessFile.missing, 0⟩) :=
  c10_invalid_cookies_not_saved false (.str "not-a-list") none ⟨none, SessFile.missing, 0⟩
    (Or.inl fun _ h => nomatch h)

/-- C2: after `save_session` returns True on a list of cookies each
carrying "name", "value" and "domain", `load_session` on the resulting
store returns a record whose "cookies" field is the saved list
(round-trip through the optionally encrypted session file). -/
theorem c2_save_load_roundtrip (crypto : Bool) (cookies : List Json)
    (local_storage : Option Json) (st : Store)
    (h : ∀ c ∈ cookies, validCookie c = true) :
    (save_session crypto (.arr cookies) local_storage st).1 = true ∧
    ∃ d, load_session crypto (save_session crypto (.arr cookies) local_storage st).2
        = some d ∧ jfield d "cookies" = some (.arr cookies) := by
  have hv : validate_session_data (mkSessionData (.arr cookies) local_storage) = true := by
    rw [validate_mkSessionData]
    simpa [cookiesArg_valid, List.all_eq_true] using h
  cases crypto with
  | false =>
    refine ⟨by simp [save_session, hv, encrypt_data], ?_⟩
    refine ⟨mkSessionData (.arr cookies) local_storage, ?_,
      jfield_mkSessionData_cookies _ _⟩
    simp [save_session, hv, encrypt_data, load_session, load_session_try, decrypt_data]
  | true =>
    rcases hgk : get_or_create_key st with ⟨k, st₁⟩
    have hkf : st₁.keyFile = some k := by
      have := get_or_create_key_keyFile st
      rw [hgk] at this
      exact this
    refine ⟨by simp [save_session, hv, encrypt_data, hgk], ?_⟩
    refine ⟨mkSessionData (.arr cookies) local_storage, ?_,
      jfield_mkSessionData_cookies _ _⟩
    simp only [save_session, hv, if_true, encrypt_data, hgk]
    simp only [load_session, load_session_try, decrypt_data]
    simp [get_or_create_key, hkf, hv]

/-- Witness for C2: a concrete encrypted round-trip from an empty store. -/
theorem c2_save_load_roundtrip_witness :
    (save_session true
        (.arr [.obj [("name", .str "n"), ("value", .str "v"), ("domain", .str "d")]])
        none ⟨none, SessFile.missing, 7⟩).1 = true ∧
    ∃ d, load_session true
        (save_session true
          (.arr [.obj [("name", .str "n"), ("value", .str "v"), ("domain", .str "d")]])
          none ⟨none, SessFile.missing, 7⟩).2
      = some d ∧
      jfield d "cookies" =
        some (.arr [.obj [("name", .str "n"), ("value", .str "v"), ("domain", .str "d")]]) :=
  c2_save_load_roundtrip true
    [.obj [("name", .str "n"), ("value", .str "v"), ("domain", .str "d")]]
    none ⟨none, SessFile.missing, 7⟩
    (fun c hc => by
      simp only [List.mem_singleton] at hc
      subst hc
      rfl)

/-- C7: `load_session` never propagates an error: a missing, unreadable
or empty file, undecryptable contents, and structurally invalid contents
all yield None, and any non-None result passed validation. -/
theorem c7_load_errors_yield_none (crypto : Bool) (st : Store) :
    (st.sessionFile = .missing → load_session crypto st = none) ∧
    (st.sessionFile = .unreadable → load_session crypto st = none) ∧
    (st.sessionFile = .stored .empty → load_session crypto st = none) ∧
    (st.sessionFile = .stored .garbage → load_session crypto st = none) ∧
    (∀ b e, st.sessionFile = .stored b → decrypt_data crypto st b = .error e →
      load_session crypto st = none) ∧
    (∀ b d, st.sessionFile = .stored b → decrypt_data crypto st b = .ok d →
      validate_session_data d = false → load_session crypto st = none) ∧
    (∀ d, load_session crypto st = some d → validate_session_data d = true) := by
  rcases st with ⟨kf, sf, fk⟩
  refine ⟨?_, ?_, ?_, ?_, ?_, ?_, ?_⟩
  · intro h; subst h; rfl
  · intro h; subst h; rfl
  · intro h; subst h; rfl
  · intro h
    subst h
    simp only [load_session, load_session_try]
    cases hdec : decrypt_data crypto ⟨kf, SessFile.stored Blob.garbage, fk⟩ Blob.garbage <;>
      simp [hdec]
    next d =>
      revert hdec
      unfold decrypt_data
      cases crypto <;> simp
  · intro b e h hdec
    subst h
    cases b <;> simp [load_session, load_session_try, hdec]
  · intro b d h hdec hval
    subst h
    cases b with
    | empty => rfl
    | garbage => simp [load_session, load_session_try, hdec, hval]
    | plain v => simp [load_session, load_session_try, hdec, hval]
    | enc k v => simp [load_session, load_session_try, hdec, hval]
  · intro d hload
    cases sf with
    | missing => exact absurd hload (by simp [load_session])
    | unreadable => exact absurd hload (by simp [load_session, load_session_try])
    | stored b =>
      cases b with
      | empty => exact absurd hload (by simp [load_session, load_session_try])
      | garbage =>
        revert hload
        simp only [load_session, load_session_try]
        cases hdec : decrypt_data crypto ⟨kf, SessFile.stored Blob.garbage, fk⟩ Blob.garbage with
        | error e => simp
        | ok d' =>
          cases hval : validate_session_data d' <;> simp_all
          intro h; subst h; assumption
      | plain v =>
        revert hload
        simp only [load_session, load_session_try]
        cases hdec : decrypt_data crypto ⟨kf, SessFile.stored (Blob.plain v), fk⟩ (Blob.plain v) with
        | error e => simp
        | ok d' =>
          cases hval : validate_session_data d' <;> simp_all
          intro h; subst h; assumption
      | enc k v =>
        revert hload
        simp only [load_session, load_session_try]
        cases hdec : decrypt_data crypto ⟨kf, SessFile.stored (Blob.enc k v), fk⟩ (Blob.enc k v) with
        | error e => simp
        | ok d' =>
          cases hval : validate_session_data d' <;> simp_all
          intro h; subst h; assumption

/-- Witness for C7 at a concrete store holding undecryptable bytes. -/
theorem c7_load_errors_yield_none_witness :
    load_session true ⟨none, SessFile.stored Blob.garbage, 0⟩ = none :=
  (c7_load_errors_yield_none true ⟨none, SessFile.stored Blob.garbage, 0⟩).2.2.2.1 rfl

/-- The `find?` on a first-component key commutes with mapping a
first-component-preserving function. -/
theorem find?_key_map {β : Type} (f : String × β → String × β)
    (hf : ∀ p, (f p).1 = p.1) (l : List (String × β)) (k : String) :
    (l.map f).find? (fun p => p.1 = k) = (l.find? (fun p => p.1 = k)).map f := by
  have hp : ((fun p : String × β => decide (p.1 = k)) ∘ f) =
      fun p : String × β => decide (p.1 = k) := by
    funext q
    simp [Function.comp, hf q]
  rw [List.find?_map, hp]

/-- Dict assignment never removes a key: a key present before `setCode`
is present after. -/
theorem setCode_find?_isSome (codes : List (String × RedeemEntry)) (code c : String)
    (e : RedeemEntry) (h : (codes.find? (fun p => p.1 = c)).isSome) :
    ((setCode codes code e).find? (fun p => p.1 = c)).isSome := by
  unfold setCode
  split
  · rw [find?_key_map]
    · cases hfind : codes.find? (fun p => decide (p.1 = c)) with
      | none => rw [hfind] at h; exact absurd h (by simp)
      | some q => simp
    · intro p
      split <;> rfl
  · rw [List.find?_append]
    cases hfind : codes.find? (fun p => decide (p.1 = c)) with
    | none => rw [hfind] at h; exact absurd h (by simp)
    | some q => rfl

/-- Ledger monotonicity: a code redeemed for a game stays redeemed after
any `mark_code_redeemed`. -/
theorem is_code_redeemed_mark (l : Ledger) (gk code gk' code' m ts : String)
    (h : is_code_redeemed l gk code = true) :
    is_code_redeemed (mark_code_redeemed l gk' code' m ts) gk code = true := by
  unfold is_code_redeemed ledgerGame at h
  cases hfind : l.find? (fun p => decide (p.1 = gk)) with
  | none => rw [hfind] at h; exact absurd h (by simp)
  | some q =>
    rw [hfind] at h
    simp only [Option.map_some'] at h
    unfold mark_code_redeemed
    have hl1 : (if (l.find? (fun p => p.1 = gk')).isSome then l
        else l ++ [(gk', [])]).find? (fun p => decide (p.1 = gk)) = some q := by
      split
      · exact hfind
      · rw [List.find?_append, hfind]
        rfl
    unfold is_code_redeemed ledgerGame
    rw [find?_key_map _ (fun p => by by_cases hc : p.1 = gk' <;> simp [hc]), hl1]
    simp only [Option.map_some']
    by_cases hq1 : q.1 = gk'
    · simp only [hq1, if_true]
      exact setCode_find?_isSome q.2 code' code ⟨m, ts⟩ h
    · simp only [hq1, if_false]
      exact h

/-- A fold preserves any invariant its step preserves. -/
theorem foldl_preserves {σ α : Type} (P : σ → Prop) (f : σ → α → σ)
    (hf : ∀ s a, P s → P (f s a)) : ∀ (l : List α) (s : σ), P s → P (l.foldl f s) := by
  intro l
  induction l with
  | nil => exact fun s hs => hs
  | cons a l ih => exact fun s hs => ih _ (hf s a hs)

/-- The `processCode` preserves the invariant. -/
theorem processCode_preserves (redeemFn : String → String → RedeemOutcome)
    (ts gk code gk' c' : String) (st : RedeemRunState)
    (h : RedeemInvariant gk code st) :
    RedeemInvariant gk code (processCode redeemFn ts st gk' c') := by
  obtain ⟨h1, h2, h3⟩ := h
  unfold processCode
  by_cases hred : is_code_redeemed st.ledger gk' c' = true
  · rw [if_pos hred]
    refine ⟨h1, h2, ?_⟩
    intro r hr hgk hcode
    rcases List.mem_append.mp hr with hr | hr
    · exact h3 r hr hgk hcode
    · simp only [List.mem_singleton] at hr
      subst hr
      rfl
  · rw [if_neg hred]
    have hne : (gk', c') ≠ (gk, code) := by
      intro he
      injection he with he1 he2
      subst he1; subst he2
      exact hred h1
    have hinv : (gk, code) ∉ st.invoked ++ [(gk', c')] := by
      intro hmem
      rcases List.mem_append.mp hmem with hmem | hmem
      · exact h2 hmem
      · simp only [List.mem_singleton] at hmem
        exact hne (hmem.symm)
    have hres' : ∀ msg : String, ∀ r ∈ st.results ++ [(gk', c', msg)],
        r.1 = gk → r.2.1 = code → r.2.2 = "Redeemed Before" := by
      intro msg r hr hgk hcode
      rcases List.mem_append.mp hr with hr | hr
      · exact h3 r hr hgk hcode
      · simp only [List.mem_singleton] at hr
        subst hr
        dsimp only at hgk hcode
        exact absurd (by rw [hgk, hcode]) hne
    cases hfn : redeemFn gk' c' with
    | exn e => exact ⟨h1, hinv, hres' _⟩
    | res success msg =>
      cases success with
      | false => exact ⟨h1, hinv, hres' _⟩
      | true =>
        exact ⟨is_code_redeemed_mark _ _ _ _ _ _ _ h1, hinv, hres' _⟩

/-- C1: a (game, code) pair already present in the loaded ledger is
never passed to the per-game redemption function during the run, and
every summary row for it reads "Redeemed Before". -/
theorem c1_no_resubmission (redeemFn : String → String → RedeemOutcome)
    (timestamp : String) (search_results : List (String × List String))
    (redeemed_codes : Ledger) (gk code : String)
    (h : is_code_redeemed redeemed_codes gk code = true) :
    (gk, code) ∉ (main_redeem redeemFn timestamp search_results redeemed_codes).invoked ∧
    ∀ r ∈ (main_redeem redeemFn timestamp search_results redeemed_codes).results,
      r.1 = gk → r.2.1 = code → r.2.2 = "Redeemed Before" := by
  have hinv : RedeemInvariant gk code
      (main_redeem redeemFn timestamp search_results redeemed_codes) := by
    unfold main_redeem main_redeem_loop
    apply foldl_preserves (RedeemInvariant gk code) _ ?_ search_results
      ⟨redeemed_codes, [], []⟩ ⟨h, by simp, by simp⟩
    intro st entry hst
    cases hmap : gameMappings entry.1 with
    | none => simpa [hmap] using hst
    | some gkey =>
      simp only [hmap]
      exact foldl_preserves (RedeemInvariant gk code) _
        (fun s a hs => processCode_preserves redeemFn timestamp gk code gkey a s hs)
        entry.2 st hst
  exact ⟨hinv.2.1, hinv.2.2⟩

/-- Witness for C1: a ledger already holding ZZZ code "ABC123"; the run
reports it "Redeemed Before" and never invokes the redeemer on it. -/
theorem c1_no_resubmission_witness :
    ("ZZZ", "ABC123") ∉ (main_redeem (fun _ _ => .res true (some "Redeemed successfully"))
        "t" [("Zenless Zone Zero", ["ABC123", "XYZ999"])]
        [("ZZZ", [("ABC123", ⟨"ok", "t0"⟩)])]).invoked ∧
    ∀ r ∈ (main_redeem (fun _ _ => .res true (some "Redeemed successfully"))
        "t" [("Zenless Zone Zero", ["ABC123", "XYZ999"])]
        [("ZZZ", [("ABC123", ⟨"ok", "t0"⟩)])]).results,
      r.1 = "ZZZ" → r.2.1 = "ABC123" → r.2.2 = "Redeemed Before" :=
  c1_no_resubmission (fun _ _ => .res true (some "Redeemed successfully")) "t"
    [("Zenless Zone Zero", ["ABC123", "XYZ999"])]
    [("ZZZ", [("ABC123", ⟨"ok", "t0"⟩)])] "ZZZ" "ABC123" (by decide)
